import Mathlib

/-!
Verification of the Seven-Assistant backend core against its natural-language
specification.  The Python sources under `seven-ai-backend/` are shallowly
embedded: pure functions become Lean functions, mutating methods become
state-passing functions, SQLite tables become Lean lists in insertion order,
floats become rationals, and wall-clock times become `Nat` ticks.  External
library calls (the sentence-transformer embedding model, the md5 hash, the
FAISS nearest-neighbour search, the network requests of the LLM backends and
`json.loads`) are modelled as parameters or oracles, exactly at the boundary
where the repository's own code stops.
-/

/- ------------------------------------------------------------------ -/
/- Python string helpers shared by several modules.                    -/
/- ------------------------------------------------------------------ -/

/-- Does `pat` occur at the head of `hay`?  (Helper for Python's `in`.) -/
def leads_chars : List Char → List Char → Bool
  | [], _ => true
  | _ :: _, [] => false
  | a :: as, b :: bs => a == b && leads_chars as bs

/-- Python's substring test `pat in hay` on character lists. -/
def has_sub_chars (pat : List Char) : List Char → Bool
  | [] => leads_chars pat []
  | c :: t => leads_chars pat (c :: t) || has_sub_chars pat t

/-- Python's `pat in hay` on strings. -/
def py_contains (hay pat : String) : Bool :=
  has_sub_chars pat.data hay.data

/-- Python's `str.lower()` (ASCII case fold, which covers every string the
embedded code lowercases). -/
def py_lower (s : List Char) : List Char :=
  s.map Char.toLower

/-- The whitespace characters Python's `str.split()` and `str.strip()` use
(restricted to the ones that can occur in the embedded inputs). -/
def py_is_space (c : Char) : Bool :=
  c == ' ' || c == '\t' || c == '\n' || c == '\r'

/-- Python's `str.split()` with no argument: split on whitespace runs,
dropping empty fields. -/
def py_words (s : String) : List (List Char) :=
  (s.data.splitOnP py_is_space).filter (fun w => !w.isEmpty)

/-- Python's `str.strip()`. -/
def py_strip (s : List Char) : List Char :=
  ((s.dropWhile py_is_space).reverse.dropWhile py_is_space).reverse

/- ------------------------------------------------------------------ -/
/- Knowledge Index: core/knowledge.py (class KnowledgeBase).           -/
/- ------------------------------------------------------------------ -/

/-- One knowledge entry as built by `KnowledgeBase.add_knowledge`
(the `created_at` isoformat timestamp is a `Nat` tick, `metadata` a
string-keyed dictionary). -/
structure KnowledgeEntry where
  id : String
  title : String
  content : String
  source : String
  created_at : Nat
  metadata : List (String × String)
deriving Repr, DecidableEq

/-- The external dependencies of the knowledge base: `self.model.encode`
(the sentence-transformer embedding) and `_generate_id` (the md5 content
hash, a deterministic function of the content string alone —
`hashlib.md5(content.encode()).hexdigest()[:16]`). -/
structure KBDeps (Vec : Type) where
  encode : String → Vec
  generate_id : String → String

/-- In-memory state of `KnowledgeBase`: `self.knowledge_entries` and the
FAISS index, modelled as the list of its vectors in insertion order
(`index.ntotal` = list length).  `available` is `is_available()`
(model and index both initialized); persistence to disk is not modelled. -/
structure KnowledgeBase (Vec : Type) where
  available : Bool
  knowledge_entries : List KnowledgeEntry
  index : List Vec
deriving Repr

/-- `KnowledgeBase._reindex_all`: guarded by
`if not self.model or not self.knowledge_entries: return` — with the model
present (availability), it returns the state UNCHANGED when the entry list
is empty; otherwise it replaces the index with freshly encoded vectors of
all entries, in order. -/
def reindex_all {Vec : Type} (d : KBDeps Vec) (kb : KnowledgeBase Vec) :
    KnowledgeBase Vec :=
  if kb.knowledge_entries.isEmpty then kb
  else { kb with index := kb.knowledge_entries.map (fun e => d.encode e.content) }

/-- Result status of `add_knowledge` (`"exists"` / `"added"`). -/
inductive AddStatus where
  | existing
  | added
deriving Repr, DecidableEq

/-- `KnowledgeBase.add_knowledge(content, title, source, metadata)`:
raises when unavailable; computes the content-derived id; returns the
existing entry unchanged when the id is already present; otherwise appends
the entry and its embedding vector. -/
def add_knowledge {Vec : Type} (d : KBDeps Vec) (kb : KnowledgeBase Vec)
    (content title source : String) (metadata : List (String × String))
    (now : Nat) :
    Except String (AddStatus × KnowledgeEntry × KnowledgeBase Vec) :=
  if kb.available = false then .error "Knowledge base not available"
  else
    let entry_id := d.generate_id content
    match kb.knowledge_entries.find? (fun e => e.id == entry_id) with
    | some existing => .ok (.existing, existing, kb)
    | none =>
      let entry : KnowledgeEntry :=
        { id := entry_id
          title := if title == "" then content.take 50 ++ "..." else title
          content := content
          source := source
          created_at := now
          metadata := metadata }
      let kb' := { kb with
        knowledge_entries := kb.knowledge_entries ++ [entry]
        index := kb.index ++ [d.encode content] }
      .ok (.added, entry, kb')

/-- `KnowledgeBase.delete_knowledge(entry_id)`: returns `False` when
unavailable or the id is absent; otherwise filters the entry out and calls
`_reindex_all` (FAISS has no native delete). -/
def delete_knowledge {Vec : Type} (d : KBDeps Vec) (kb : KnowledgeBase Vec)
    (entry_id : String) : Bool × KnowledgeBase Vec :=
  if kb.available = false then (false, kb)
  else
    match kb.knowledge_entries.find? (fun e => e.id == entry_id) with
    | none => (false, kb)
    | some _ =>
      let kb' := { kb with
        knowledge_entries := kb.knowledge_entries.filter (fun e => e.id != entry_id) }
      (true, reindex_all d kb')

/-- `KnowledgeBase.clear_all()`: empties the entry list and creates a new
empty index (`_create_new_index` skips re-indexing because the entry list
is already empty); returns the number of entries removed. -/
def clear_all {Vec : Type} (kb : KnowledgeBase Vec) : Nat × KnowledgeBase Vec :=
  if kb.available = false then (0, kb)
  else (kb.knowledge_entries.length, { kb with knowledge_entries := [], index := [] })

/-- One result row of `query_knowledge`: the entry annotated with the
similarity score `1 / (1 + distance)` and the 1-based rank. -/
structure QueryHit where
  entry : KnowledgeEntry
  similarity : ℚ
  rank : Nat
deriving Repr, DecidableEq

/-- `KnowledgeBase.query_knowledge(query, top_k, min_similarity)`.
`search_hits` stands for `zip(distances[0], indices[0])` returned by
`self.index.search` — an oracle, since the nearest-neighbour computation
lives in FAISS; the code then keeps each hit whose index is a valid entry
position and whose similarity `1/(1+distance)` reaches the threshold.
An unavailable or empty knowledge base short-circuits to `[]`. -/
def query_knowledge {Vec : Type} (kb : KnowledgeBase Vec)
    (search_hits : List (ℚ × Int)) (min_similarity : ℚ) : List QueryHit :=
  if !kb.available || kb.knowledge_entries.isEmpty then []
  else
    search_hits.enum.filterMap (fun p =>
      let i := p.1
      let distance := p.2.1
      let idx := p.2.2
      if 0 ≤ idx ∧ idx < (kb.knowledge_entries.length : Int) then
        match kb.knowledge_entries.get? idx.toNat with
        | some entry =>
          let similarity : ℚ := 1 / (1 + distance)
          if min_similarity ≤ similarity then
            some { entry := entry, similarity := similarity, rank := i + 1 }
          else none
        | none => none
      else none)

/- ------------------------------------------------------------------ -/
/- Backend Dispatcher: core/llm.py (class LLMClient).                  -/
/- ------------------------------------------------------------------ -/

/-- The normalized reply envelope of `LLMClient.chat`
(token-usage accounting omitted). -/
structure LLMReply where
  message : String
  provider : String
  model : String
deriving Repr, DecidableEq

/-- The environment a single `LLMClient.chat` call runs in:
the two availability checks (`is_groq_available`, `is_ollama_available`),
the configured model identities, and the outcomes of the two network
requests — `.ok content` for a successful HTTP round trip, `.error msg`
for a raised exception whose `str(e)` is `msg`. -/
structure LLMEnv where
  groq_available : Bool
  ollama_available : Bool
  groq_model : String
  ollama_model : String
  groq_call : Except String String
  ollama_call : Except String String
deriving Repr

/-- The keyword list `_chat_groq` scans `str(e).lower()` for to decide
whether a Groq failure is a network/offline failure. -/
def offline_keywords : List String :=
  ["connection", "timeout", "network", "unreachable",
   "refused", "failed to resolve", "offline"]

/-- `is_offline` test inside `_chat_groq`'s exception handler. -/
def is_offline_error (msg : String) : Bool :=
  offline_keywords.any (fun kw => has_sub_chars kw.data (py_lower msg.data))

/-- `LLMClient._chat_ollama` (non-streaming): a successful request with
non-empty content yields the envelope tagged `"ollama"`; HTTP failures,
connection errors and empty replies raise (the various wrapped exception
texts are collapsed into the carried message). -/
def chat_ollama (env : LLMEnv) : Except String LLMReply :=
  match env.ollama_call with
  | .ok content =>
      if content == "" then .error "Ollama returned empty response"
      else .ok { message := content, provider := "ollama", model := env.ollama_model }
  | .error e => .error ("Ollama error: " ++ e)

/-- `LLMClient._chat_groq` (non-streaming): a successful request yields the
envelope tagged `"groq"`; on an exception the handler falls back to Ollama
whenever `fallback_to_ollama` is set, the error text contains an offline
keyword, and Ollama is available — otherwise it re-raises
`"Groq API error: ..."`.  Note the fallback does NOT consult the caller's
provider hint. -/
def chat_groq (env : LLMEnv) (fallback_to_ollama : Bool) : Except String LLMReply :=
  match env.groq_call with
  | .ok content => .ok { message := content, provider := "groq", model := env.groq_model }
  | .error e =>
      if fallback_to_ollama && is_offline_error e && env.ollama_available then
        chat_ollama env
      else
        .error ("Groq API error: " ++ e)

/-- `LLMClient.chat(messages, provider, ...)`: resolves `"auto"` to the
first available backend (Groq before Ollama, error when neither is up),
then routes.  The `"groq"` route always passes `fallback_to_ollama=True`
into `_chat_groq`; the outer handler additionally retries on Ollama only
in auto mode. -/
def llm_chat (env : LLMEnv) (provider : String) : Except String LLMReply :=
  let auto_mode := provider == "auto"
  let resolved : Except String String :=
    if provider == "auto" then
      if env.groq_available then .ok "groq"
      else if env.ollama_available then .ok "ollama"
      else .error "No LLM provider available."
    else .ok provider
  match resolved with
  | .error e => .error e
  | .ok p =>
    if p == "groq" then
      match chat_groq env true with
      | .ok r => .ok r
      | .error e =>
          if auto_mode && env.ollama_available then chat_ollama env
          else .error e
    else if p == "ollama" then
      chat_ollama env
    else .error ("Unknown provider: " ++ p)

/- ------------------------------------------------------------------ -/
/- Turn orchestrator reply parsing: routes/chat_routes.py, `chat`.     -/
/- ------------------------------------------------------------------ -/

/-- Python values `json.loads` can produce. -/
inductive PyJson where
  | null
  | bool (b : Bool)
  | num (q : ℚ)
  | str (s : String)
  | arr (items : List PyJson)
  | obj (fields : List (String × PyJson))
deriving Repr

/-- `dict.get(key)` on a parsed JSON object (`None` when absent; with
duplicate keys `json.loads` keeps the last one, hence the reverse). -/
def dict_get (fields : List (String × PyJson)) (key : String) : Option PyJson :=
  (fields.reverse.find? (fun kv => kv.1 == key)).map (fun kv => kv.2)

/-- The three variables the orchestrator extracts from the raw backend
reply (`assistant_message`, `action`, `action_data`). -/
structure ParsedReply where
  assistant_message : PyJson
  action : Option PyJson
  action_data : Option PyJson
deriving Repr

/-- The `try: json.loads ... except (JSONDecodeError, AttributeError)`
block of `chat` in chat_routes.py.  `loads` is the outcome of
`json.loads(raw_message)`: `none` models a `JSONDecodeError`; a non-object
value makes the first `.get` raise `AttributeError`; both land in the
handler, which keeps the raw text and clears the action.  On an object,
`message` falls back to the raw text when absent while `action` and
`data` are read regardless. -/
def parse_llm_reply (raw_message : String) (loads : Option PyJson) : ParsedReply :=
  match loads with
  | some (PyJson.obj fields) =>
      { assistant_message := (dict_get fields "message").getD (PyJson.str raw_message)
        action := dict_get fields "action"
        action_data := dict_get fields "data" }
  | _ =>
      { assistant_message := PyJson.str raw_message
        action := none
        action_data := none }

/- ------------------------------------------------------------------ -/
/- Topic Tracker: core/conversation_context.py.                        -/
/- ------------------------------------------------------------------ -/

/-- `ConversationTopic`: label, keywords, bounded message excerpts,
confidence, the two `datetime` stamps (modelled as `Nat` ticks — Python's
`datetime.isoformat`/`fromisoformat` round-trip is a bijection) and the
message counter. -/
structure ConversationTopic where
  topic : String
  keywords : List String
  messages : List String
  confidence : ℚ
  start_time : Nat
  last_updated : Nat
  message_count : Nat
deriving Repr, DecidableEq

/-- `ConversationTopic.__init__`: both timestamps are `datetime.now()` and
the counter starts at the number of seed messages. -/
def ConversationTopic.create (topic : String) (keywords : List String)
    (messages : List String) (confidence : ℚ) (now : Nat) : ConversationTopic :=
  { topic := topic, keywords := keywords, messages := messages
    confidence := confidence, start_time := now, last_updated := now
    message_count := messages.length }

/-- `ConversationTopic.add_message(message, max_messages=5)`: append, keep
only the last `max_messages` excerpts, bump the counter and the
`last_updated` stamp. -/
def ConversationTopic.add_message (t : ConversationTopic) (message : String)
    (max_messages : Nat) (now : Nat) : ConversationTopic :=
  let msgs := t.messages ++ [message]
  let msgs := if max_messages < msgs.length then msgs.drop (msgs.length - max_messages) else msgs
  { t with messages := msgs, last_updated := now, message_count := t.message_count + 1 }

/-- `ConversationTopic.get_summary()`. -/
def ConversationTopic.get_summary (t : ConversationTopic) : String :=
  t.topic ++ " (discussed in " ++ toString t.message_count ++ " messages)"

/-- `ConversationContext` state: the capped recent-topics ring
(`self.current_topics`), the current topic, and the full topic history.
The `available` flag only gates the external classifier, which is already
an oracle here, so it is not part of the state. -/
structure ConversationContext where
  current_topics : List ConversationTopic
  current_topic : Option ConversationTopic
  topic_history : List ConversationTopic
deriving Repr, DecidableEq

/-- `ConversationContext.__init__` (also `reset_all`). -/
def ConversationContext.init : ConversationContext :=
  { current_topics := [], current_topic := none, topic_history := [] }

/-- The ring push that both `update_context` and `reset_current_topic`
perform: `self.current_topics.append(t)` followed by
`if len(self.current_topics) > 3: self.current_topics = self.current_topics[-3:]`. -/
def push_recent_topic (ring : List ConversationTopic) (t : ConversationTopic) :
    List ConversationTopic :=
  let appended := ring ++ [t]
  if 3 < appended.length then appended.drop (appended.length - 3) else appended

/-- The `(topic, confidence, keywords)` triple `detect_topic` produces for
the incoming user message.  `detect_topic` calls the zero-shot classifier
(an external ML model), so its outcome is an input here. -/
structure DetectedTopic where
  topic : String
  confidence : ℚ
  keywords : List String
deriving Repr, DecidableEq

/-- The dictionary `update_context` returns. -/
structure ContextUpdateInfo where
  current_topic : String
  confidence : ℚ
  keywords : List String
  topic_changed : Bool
  topic_history : List String
  message_count : Nat
deriving Repr, DecidableEq

/-- Python's `list[-n:]`. -/
def last_n {α : Type} (n : Nat) (l : List α) : List α :=
  l.drop (l.length - n)

/-- `ConversationContext.update_context(user_message, assistant_message)`
with the classifier outcome `det` supplied.  New or differing label →
topic-changed: archive the current topic (when any) into the history and
the capped ring, and start a fresh single-message topic.  Same label →
continuation: `add_message` and then
`confidence = (current.confidence + det.confidence) / 2`.
(The assistant message is unused by the source, too.) -/
def ConversationContext.update_context (ctx : ConversationContext)
    (user_message : String) (det : DetectedTopic) (now : Nat) :
    ConversationContext × ContextUpdateInfo :=
  match ctx.current_topic with
  | none =>
      let new_topic := ConversationTopic.create det.topic det.keywords [user_message] det.confidence now
      let ctx' : ConversationContext :=
        { current_topics := ctx.current_topics
          current_topic := some new_topic
          topic_history := ctx.topic_history }
      (ctx',
       { current_topic := det.topic, confidence := det.confidence
         keywords := det.keywords, topic_changed := true
         topic_history := (last_n 3 ctx'.current_topics).map ConversationTopic.get_summary
         message_count := new_topic.message_count })
  | some cur =>
      if cur.topic != det.topic then
        let ring := push_recent_topic ctx.current_topics cur
        let new_topic := ConversationTopic.create det.topic det.keywords [user_message] det.confidence now
        let ctx' : ConversationContext :=
          { current_topics := ring
            current_topic := some new_topic
            topic_history := ctx.topic_history ++ [cur] }
        (ctx',
         { current_topic := det.topic, confidence := det.confidence
           keywords := det.keywords, topic_changed := true
           topic_history := (last_n 3 ring).map ConversationTopic.get_summary
           message_count := new_topic.message_count })
      else
        let cur' := cur.add_message user_message 5 now
        let cur'' := { cur' with confidence := (cur'.confidence + det.confidence) / 2 }
        let ctx' : ConversationContext := { ctx with current_topic := some cur'' }
        (ctx',
         { current_topic := det.topic, confidence := det.confidence
           keywords := det.keywords, topic_changed := false
           topic_history := (last_n 3 ctx.current_topics).map ConversationTopic.get_summary
           message_count := cur''.message_count })

/-- `ConversationContext.reset_current_topic()`: archive the current topic
(if any) into the history and the capped ring, then clear it. -/
def ConversationContext.reset_current_topic (ctx : ConversationContext) :
    ConversationContext :=
  match ctx.current_topic with
  | some cur =>
      { current_topics := push_recent_topic ctx.current_topics cur
        current_topic := none
        topic_history := ctx.topic_history ++ [cur] }
  | none => { ctx with current_topic := none }

/-- The operations a session's Topic Tracker state undergoes. -/
inductive ContextOp where
  | update (user_message : String) (det : DetectedTopic) (now : Nat)
  | reset_current
  | reset_all
deriving Repr

/-- Apply one Topic Tracker operation. -/
def apply_context_op (ctx : ConversationContext) : ContextOp → ConversationContext
  | .update user_message det now => (ctx.update_context user_message det now).1
  | .reset_current => ctx.reset_current_topic
  | .reset_all => ConversationContext.init

/-- Apply a sequence of Topic Tracker operations in turn order. -/
def apply_context_ops (ctx : ConversationContext) (ops : List ContextOp) :
    ConversationContext :=
  ops.foldl apply_context_op ctx

/-- One continuation turn for claim C4: the user message, the observed
classifier confidence and keywords, and the wall-clock tick. -/
structure TurnInput where
  user_message : String
  confidence : ℚ
  keywords : List String
  now : Nat
deriving Repr

/-- Run `update_context` for a run of turns all classified with the same
label `l`. -/
def apply_turns (l : String) (ctx : ConversationContext) (ts : List TurnInput) :
    ConversationContext :=
  ts.foldl (fun c t =>
    (c.update_context t.user_message ⟨l, t.confidence, t.keywords⟩ t.now).1) ctx

/-- The confidence the continuation branch actually accumulates: each step
replaces the confidence with the average of the previous value and the
newly observed one (`(old + new) / 2`), so older observations decay
geometrically. -/
def halving_average (c : ℚ) (cs : List ℚ) : ℚ :=
  cs.foldl (fun acc x => (acc + x) / 2) c

/-- `ConversationTopic.to_dict()` (the two isoformat strings are the `Nat`
ticks, see `ConversationTopic`). -/
structure TopicDict where
  topic : String
  keywords : List String
  messages : List String
  confidence : ℚ
  start_time : Nat
  last_updated : Nat
  message_count : Nat
deriving Repr, DecidableEq

/-- `ConversationTopic.to_dict`. -/
def ConversationTopic.to_dict (t : ConversationTopic) : TopicDict :=
  { topic := t.topic, keywords := t.keywords, messages := t.messages
    confidence := t.confidence, start_time := t.start_time
    last_updated := t.last_updated, message_count := t.message_count }

/-- `ConversationTopic.from_dict`: the constructor runs with the stored
label, keywords, messages and confidence (its `datetime.now()` is the
`now` argument), then the two stamps and the counter are overwritten with
the stored values. -/
def ConversationTopic.from_dict (now : Nat) (d : TopicDict) : ConversationTopic :=
  let t := ConversationTopic.create d.topic d.keywords d.messages d.confidence now
  { t with start_time := d.start_time, last_updated := d.last_updated
           message_count := d.message_count }

/-- `ConversationContext.to_dict()`: serializes the ring and the current
topic; of the history only the count (`topic_count`) is stored. -/
structure ContextDict where
  current_topics : List TopicDict
  current_topic : Option TopicDict
  topic_count : Nat
deriving Repr, DecidableEq

/-- `ConversationContext.to_dict`. -/
def ConversationContext.to_dict (ctx : ConversationContext) : ContextDict :=
  { current_topics := ctx.current_topics.map ConversationTopic.to_dict
    current_topic := ctx.current_topic.map ConversationTopic.to_dict
    topic_count := ctx.topic_history.length }

/-- `ConversationContext.from_dict(data)`: restores the ring and the
current topic onto `ctx` (the receiver), leaving `topic_history` as it
was; `topic_count` is ignored. -/
def ConversationContext.from_dict (ctx : ConversationContext) (now : Nat)
    (d : ContextDict) : ConversationContext :=
  { ctx with
    current_topics := d.current_topics.map (ConversationTopic.from_dict now)
    current_topic := d.current_topic.map (ConversationTopic.from_dict now) }

/- ------------------------------------------------------------------ -/
/- Ambiguity Gate: core/confidence.py (class ConfidenceScorer).        -/
/- ------------------------------------------------------------------ -/

/-- `ConfidenceScorer.INTENT_PATTERNS`, in the source's (insertion) order. -/
def INTENT_PATTERNS : List (String × List String) :=
  [("greeting",
    ["hello", "hi", "hey", "good morning", "good afternoon", "good evening",
     "what\x27s up", "how are you", "greetings"]),
   ("time_query",
    ["what time is it", "current time", "what\x27s the time", "time now",
     "tell me the time", "clock"]),
   ("date_query",
    ["what date is it", "what\x27s today\x27s date", "current date",
     "today\x27s date", "what day is it", "date today"]),
   ("search",
    ["search for", "look up", "find information about", "google",
     "search the web", "look for"]),
   ("calculation",
    ["calculate", "compute", "what is", "plus", "minus", "times",
     "divided by", "math problem", "solve"]),
   ("weather",
    ["weather", "temperature", "forecast", "rain", "sunny", "cloudy",
     "hot", "cold", "climate"]),
   ("reminder",
    ["remind me", "set reminder", "don\x27t forget", "remember to",
     "create reminder", "schedule reminder"]),
   ("note",
    ["take note", "write down", "remember this", "save this",
     "create note", "add note"]),
   ("help",
    ["help", "how do i", "how to", "can you help", "assist me",
     "what can you do", "capabilities", "features"])]

/-- `ConfidenceScorer.CONFIDENCE_THRESHOLD = 0.7`. -/
def CONFIDENCE_THRESHOLD : ℚ := 7 / 10

/-- `ConfidenceScorer._simple_intent_detection(query)`: for each intent,
the score is the fraction of its example patterns occurring as substrings
of the lowercased query; the best strictly-greater score wins (starting
from `("unknown", 0.0)`), and a query of fewer than 2 words has its score
halved. -/
def simple_intent_detection (query : String) : String × ℚ :=
  let query_lower := py_lower query.data
  let best := INTENT_PATTERNS.foldl (fun (acc : String × ℚ) ip =>
    let hits := (ip.2.filter (fun pat => has_sub_chars pat.data query_lower)).length
    let score : ℚ := if ip.2.length = 0 then 0 else (hits : ℚ) / (ip.2.length : ℚ)
    if acc.2 < score then (ip.1, score) else acc) ("unknown", 0)
  if (py_words query).length < 2 then (best.1, best.2 * (1 / 2)) else best

/-- `ConfidenceScorer.detect_intent(query)` on the keyword-fallback path
(the sentence-transformers path runs an external similarity model; the
spec's §4.4 fallback is the part of the Gate that lives in this
repository's code). -/
def detect_intent (query : String) : String × ℚ :=
  simple_intent_detection query

/-- The dictionary `analyze_query` returns.  The source rounds the
reported confidence to 3 decimals for display; the flag computations all
use the unrounded value, which is what is kept here. -/
structure QueryAnalysis where
  query : String
  intent : String
  confidence : ℚ
  is_ambiguous : Bool
  needs_clarification : Bool
  ambiguity_reasons : List String
  threshold : ℚ
deriving Repr, DecidableEq

/-- `ConfidenceScorer.analyze_query(query)`: the ambiguity flag is
`confidence < CONFIDENCE_THRESHOLD`; the reason chain
(empty / too-short / incomplete-question / vague-reference /
multiple-questions) is an `elif` cascade that — except for the empty
case, which also forces the flag and zeroes the confidence — only
records a reason. -/
def analyze_query (query : String) : QueryAnalysis :=
  let det := detect_intent query
  let intent := det.1
  let confidence := det.2
  let is_amb := confidence < CONFIDENCE_THRESHOLD
  let query_lower := py_lower query.data
  if (py_strip query.data).length = 0 then
    { query := query, intent := intent, confidence := 0
      is_ambiguous := true, needs_clarification := true
      ambiguity_reasons := ["empty_query"], threshold := CONFIDENCE_THRESHOLD }
  else
    let reasons :=
      if (py_words query).length < 3 then ["too_short"]
      else if has_sub_chars "what".data query_lower && !py_contains query "?" then
        ["incomplete_question"]
      else if ["it", "that", "this", "thing", "something"].any
                (fun w => query_lower == w.data) then
        ["vague_reference"]
      else if 2 < (query.data.filter (fun c => c == '?')).length then
        ["multiple_questions"]
      else []
    { query := query, intent := intent, confidence := confidence
      is_ambiguous := is_amb, needs_clarification := is_amb
      ambiguity_reasons := reasons, threshold := CONFIDENCE_THRESHOLD }

/- ------------------------------------------------------------------ -/
/- Session Store messages: core/memory.py (class MemoryManager).       -/
/- ------------------------------------------------------------------ -/

/-- One row of the `messages` table; the list a `MessagesTable` forms is
in rowid (insertion) order and `timestamp` is the `CURRENT_TIMESTAMP`
tick assigned on insert. -/
structure StoredMessage where
  session_id : String
  user_id : String
  role : String
  content : String
  timestamp : Nat
deriving Repr, DecidableEq

/-- `MemoryManager.save_message`: a plain `INSERT`, i.e. an append. -/
def save_message (db : List StoredMessage) (session_id user_id role content : String)
    (now : Nat) : List StoredMessage :=
  db ++ [{ session_id := session_id, user_id := user_id, role := role
           content := content, timestamp := now }]

/-- Stable descending insertion by timestamp: the new row goes after every
already-placed row whose timestamp is ≥ its own.  Folding this over the
table in scan order models `ORDER BY timestamp DESC` with the scan-order
behaviour SQLite's sorter exhibits on equal keys (SQL itself leaves the
tie order unspecified; the rows enter the sorter in rowid order). -/
def insert_desc_by_ts (m : StoredMessage) : List StoredMessage → List StoredMessage
  | [] => [m]
  | x :: xs =>
      if m.timestamp ≤ x.timestamp then x :: insert_desc_by_ts m xs
      else m :: x :: xs

/-- `ORDER BY timestamp DESC` over the scanned rows. -/
def sort_by_ts_desc (rows : List StoredMessage) : List StoredMessage :=
  rows.foldl (fun acc m => insert_desc_by_ts m acc) []

/-- The row shape `get_session_messages` returns. -/
structure MessageOut where
  role : String
  content : String
  timestamp : Nat
deriving Repr, DecidableEq

/-- `MemoryManager.get_session_messages(session_id, limit)`: select the
session's rows ordered by timestamp descending, apply `LIMIT` when the
limit is truthy (Python `if limit:` — 0 or `None` means no limit), then
`reversed(rows)` to present them oldest-first. -/
def get_session_messages (db : List StoredMessage) (session_id : String)
    (limit : Nat) : List MessageOut :=
  let rows := sort_by_ts_desc (db.filter (fun m => m.session_id == session_id))
  let rows := if limit ≠ 0 then rows.take limit else rows
  rows.reverse.map (fun m => { role := m.role, content := m.content
                               timestamp := m.timestamp })

/-- What the spec promises `get_session_messages` returns (stated in the
spec's words, for comparison with the code): the last-K suffix of the
session's append-ordered message sequence, oldest first — meaningful
whenever timestamp order and insertion order agree, and, by the spec's
tie-break clause, also when timestamps tie. -/
def spec_chronological_fetch (db : List StoredMessage) (session_id : String)
    (limit : Nat) : List MessageOut :=
  let rows := db.filter (fun m => m.session_id == session_id)
  let rows := if limit ≠ 0 then last_n limit rows else rows
  rows.map (fun m => { role := m.role, content := m.content
                       timestamp := m.timestamp })

/- ------------------------------------------------------------------ -/
/- Correction Ledger: core/feedback.py (class FeedbackManager).        -/
/- ------------------------------------------------------------------ -/

/-- One row of the `learning_insights` table (`last_seen` isoformat
timestamps are `Nat` ticks; `applied_to_memory` is the 0/1 flag). -/
structure LearningInsight where
  id : Nat
  user_id : String
  insight_type : String
  pattern : String
  correction : String
  frequency : Nat
  last_seen : Nat
  applied_to_memory : Bool
deriving Repr, DecidableEq

/-- Stable descending insertion for
`ORDER BY frequency DESC, last_seen DESC` (scan-order ties, as for
messages). -/
def insert_desc_by_freq (m : LearningInsight) :
    List LearningInsight → List LearningInsight
  | [] => [m]
  | x :: xs =>
      if m.frequency < x.frequency ∨
         (m.frequency = x.frequency ∧ m.last_seen ≤ x.last_seen) then
        x :: insert_desc_by_freq m xs
      else m :: x :: xs

/-- `FeedbackManager.get_learning_insights(user_id, min_frequency)`:
the user's insights at or above the frequency floor, ordered by
frequency then recency, both descending. -/
def get_learning_insights (db : List LearningInsight) (user_id : String)
    (min_frequency : Nat) : List LearningInsight :=
  (db.filter (fun i => i.user_id == user_id && min_frequency ≤ i.frequency)).foldl
    (fun acc m => insert_desc_by_freq m acc) []

/-- The Python exceptions the promotion path can raise. -/
inductive PyError where
  | attributeError (msg : String)
deriving Repr, DecidableEq

/-- `FeedbackManager.apply_insights_to_memory(user_id, memory_manager)`,
called (routes/feedback_routes.py) with the `MemoryManager` singleton of
core/memory.py: iterates the user's insights of frequency ≥ 2, skips the
applied ones, and for the first unapplied one invokes
`memory_manager.add_memory(...)` — a method `MemoryManager` does not
define, so the interpreter raises `AttributeError` there, before the
memory write and before the `applied_to_memory` update.  When every
eligible insight is already applied the loop completes with 0 applied
and the table untouched. -/
def apply_insights_to_memory (db : List LearningInsight) (user_id : String) :
    Except PyError (Nat × List LearningInsight) :=
  let insights := get_learning_insights db user_id 2
  match insights.find? (fun i => !i.applied_to_memory) with
  | some _ =>
      .error (.attributeError "MemoryManager object has no attribute add_memory")
  | none => .ok (0, db)

/- ------------------------------------------------------------------ -/
/- Concrete instances used by witnesses.                               -/
/- ------------------------------------------------------------------ -/

/-- The `Unit` instantiation of the knowledge base's external
dependencies (trivial embedding, identity content hash), used to witness
the knowledge-base theorems on concrete states. -/
def unit_kb_deps : KBDeps Unit := ⟨fun _ => (), fun s => s⟩

/-- The entry `add_knowledge unit_kb_deps _ "a" "" "user" [] 0` stores. -/
def entry_a : KnowledgeEntry :=
  { id := "a", title := "a...", content := "a", source := "user",
    created_at := 0, metadata := [] }

/-- The entry `add_knowledge unit_kb_deps _ "b" "" "user" [] 1` stores. -/
def entry_b : KnowledgeEntry :=
  { id := "b", title := "b...", content := "b", source := "user",
    created_at := 1, metadata := [] }

/-- The knowledge base reached from the empty one by adding `"a"` then
`"b"`. -/
def two_entry_kb : KnowledgeBase Unit :=
  { available := true, knowledge_entries := [entry_a, entry_b], index := [(), ()] }

/- ------------------------------------------------------------------ -/
/- Shared helper lemmas.                                               -/
/- ------------------------------------------------------------------ -/

theorem push_recent_topic_length_le (ring : List ConversationTopic)
    (t : ConversationTopic) (h : ring.length ≤ 3) :
    (push_recent_topic ring t).length ≤ 3 := by
  by_cases h3 : 3 < (ring ++ [t]).length
  · simp at h3
    simp [push_recent_topic, h3]
    omega
  · simp at h3
    have h3' : ¬ 3 < ring.length + 1 := by omega
    simp [push_recent_topic, h3']
    omega

theorem apply_context_op_ring_le (ctx : ConversationContext) (op : ContextOp)
    (h : ctx.current_topics.length ≤ 3) :
    (apply_context_op ctx op).current_topics.length ≤ 3 := by
  cases op with
  | update user_message det now =>
      unfold apply_context_op ConversationContext.update_context
      cases hcur : ctx.current_topic with
      | none => simpa using h
      | some cur =>
          by_cases hne : (cur.topic != det.topic) = true
          · simpa [hne] using push_recent_topic_length_le ctx.current_topics cur h
          · have hne' : (cur.topic != det.topic) = false := by
              revert hne; cases cur.topic != det.topic <;> simp
            simpa [hne'] using h
  | reset_current =>
      unfold apply_context_op ConversationContext.reset_current_topic
      cases hcur : ctx.current_topic with
      | none => simpa using h
      | some cur => simpa using push_recent_topic_length_le ctx.current_topics cur h
  | reset_all => simp [apply_context_op, ConversationContext.init]

theorem apply_context_ops_ring_le (ops : List ContextOp) :
    ∀ ctx : ConversationContext, ctx.current_topics.length ≤ 3 →
      (apply_context_ops ctx ops).current_topics.length ≤ 3 := by
  induction ops with
  | nil => intro ctx h; exact h
  | cons op ops ih =>
      intro ctx h
      exact ih (apply_context_op ctx op) (apply_context_op_ring_le ctx op h)

/- ------------------------------------------------------------------ -/
/- Claim theorems.                                                     -/
/- ------------------------------------------------------------------ -/

/-- C9: over every sequence of Topic Tracker operations (topic updates,
topic resets, full resets) starting from the initial state, the
recent-topics ring never holds more than 3 topics; and pushing a topic
into a full (3-element) ring evicts exactly the oldest element, keeping
the two younger ones and appending the new one. -/
theorem recent_topics_ring_capacity :
    (∀ ops : List ContextOp,
       (apply_context_ops ConversationContext.init ops).current_topics.length ≤ 3) ∧
    (∀ (ring : List ConversationTopic) (t : ConversationTopic),
       ring.length = 3 → push_recent_topic ring t = ring.drop 1 ++ [t]) := by
  constructor
  · intro ops
    exact apply_context_ops_ring_le ops ConversationContext.init (by simp [ConversationContext.init])
  · intro ring t h
    have h4 : 3 < (ring ++ [t]).length := by simp [h]
    simp [push_recent_topic, h4, h, List.drop_append_eq_append_drop]

/-- Witness for C9: pushing into the concrete full ring `[t1, t2, t3]`
evicts `t1` (the oldest) and keeps `[t2, t3, t4]`. -/
theorem recent_topics_ring_capacity_witness :
    push_recent_topic
      [ConversationTopic.create "a" [] [] 1 0,
       ConversationTopic.create "b" [] [] 1 1,
       ConversationTopic.create "c" [] [] 1 2]
      (ConversationTopic.create "d" [] [] 1 3)
    = [ConversationTopic.create "b" [] [] 1 1,
       ConversationTopic.create "c" [] [] 1 2,
       ConversationTopic.create "d" [] [] 1 3] :=
  recent_topics_ring_capacity.2
    [ConversationTopic.create "a" [] [] 1 0,
     ConversationTopic.create "b" [] [] 1 1,
     ConversationTopic.create "c" [] [] 1 2]
    (ConversationTopic.create "d" [] [] 1 3) rfl

/-- C10: serializing a Topic Tracker state with `to_dict` and loading the
result with `from_dict` into a fresh context restores the current topic
exactly (label, keywords, excerpts, confidence, both timestamps, message
counter) and the recent-topics ring exactly, while the topic history comes
back empty — `to_dict` stores only its count. -/
theorem context_serialization_roundtrip :
    ∀ (ctx : ConversationContext) (now : Nat),
      (ConversationContext.init.from_dict now ctx.to_dict).current_topic
          = ctx.current_topic ∧
      (ConversationContext.init.from_dict now ctx.to_dict).current_topics
          = ctx.current_topics ∧
      (ConversationContext.init.from_dict now ctx.to_dict).topic_history = [] ∧
      ctx.to_dict.topic_count = ctx.topic_history.length := by
  intro ctx now
  have ht : ∀ t : ConversationTopic, ConversationTopic.from_dict now t.to_dict = t := by
    intro t; cases t; rfl
  have hid : ConversationTopic.from_dict now ∘ ConversationTopic.to_dict = id :=
    funext ht
  refine ⟨?_, ?_, rfl, rfl⟩
  · simp [ConversationContext.from_dict, ConversationContext.to_dict,
          Option.map_map, hid]
  · simp [ConversationContext.from_dict, ConversationContext.to_dict,
          List.map_map, hid]

/-- C6: a second `add_knowledge` with the same content — whatever title,
source or metadata it passes — returns status `"exists"` with exactly the
entry the first add stored (whose id is the content-derived id) and the
state unchanged, so entry count and vector count are untouched. -/
theorem add_knowledge_idempotent :
    ∀ (Vec : Type) (d : KBDeps Vec) (kb : KnowledgeBase Vec)
      (c t s : String) (m : List (String × String)) (now : Nat)
      (t' s' : String) (m' : List (String × String)) (now' : Nat)
      (st : AddStatus) (e : KnowledgeEntry) (kb₁ : KnowledgeBase Vec),
      add_knowledge d kb c t s m now = .ok (st, e, kb₁) →
      add_knowledge d kb₁ c t' s' m' now' = .ok (.existing, e, kb₁) ∧
      e.id = d.generate_id c := by
  intro Vec d kb c t s m now t' s' m' now' st e kb₁ h
  have hav : kb.available = true := by
    by_contra hn
    have hf : kb.available = false := by revert hn; cases kb.available <;> simp
    simp [add_knowledge, hf] at h
  cases hfind : kb.knowledge_entries.find? (fun x => x.id == d.generate_id c) with
  | some ex =>
      simp only [add_knowledge, hav, Bool.true_eq_false, if_false, hfind] at h
      obtain ⟨h1, h2, h3⟩ := by simpa using h
      subst h2 h3
      refine ⟨by simp [add_knowledge, hav, hfind], ?_⟩
      have hpe : (ex.id == d.generate_id c) = true := by
        simpa using List.find?_some hfind
      exact eq_of_beq hpe
  | none =>
      simp only [add_knowledge, hav, Bool.true_eq_false, if_false, hfind] at h
      injection h with htrip
      injection htrip with h1 hrest
      injection hrest with h2 h3
      subst h2
      subst h3
      exact ⟨by simp [add_knowledge, List.find?_append, hfind, List.find?], rfl⟩

set_option maxRecDepth 8000 in
/-- Witness for C6: in the empty available knowledge base (embedding into
`Unit`, identity id), adding `"abc"` and then adding `"abc"` again with a
different title, source and metadata returns the stored entry with status
`"exists"` and the state unchanged. -/
theorem add_knowledge_idempotent_witness :
    add_knowledge unit_kb_deps
      { available := true
        knowledge_entries := [{ id := "abc", title := "abc...", content := "abc",
                                source := "user", created_at := 0, metadata := [] }]
        index := [()] }
      "abc" "Other" "doc" [("k", "v")] 5
    = .ok (.existing,
           { id := "abc", title := "abc...", content := "abc",
             source := "user", created_at := 0, metadata := [] },
           { available := true
             knowledge_entries := [{ id := "abc", title := "abc...", content := "abc",
                                     source := "user", created_at := 0, metadata := [] }]
             index := [()] }) :=
  (add_knowledge_idempotent Unit unit_kb_deps
    { available := true, knowledge_entries := [], index := [] }
    "abc" "" "user" [] 0 "Other" "doc" [("k", "v")] 5 .added
    { id := "abc", title := "abc...", content := "abc",
      source := "user", created_at := 0, metadata := [] }
    { available := true
      knowledge_entries := [{ id := "abc", title := "abc...", content := "abc",
                              source := "user", created_at := 0, metadata := [] }]
      index := [()] }
    rfl).1

/-- C7 (amended): the orchestrator's reply parsing is total and degrades a
non-JSON reply or a JSON non-object to the raw text with no action; for a
JSON object it falls back to the raw text when the `message` field is
absent but still reads `action` and `data` from the object — so an object
without the expected `message` field can still carry an action, contrary
to the claim as stated. -/
theorem parse_llm_reply_amended :
    (∀ raw : String,
       parse_llm_reply raw none
         = { assistant_message := PyJson.str raw, action := none, action_data := none }) ∧
    (∀ (raw : String) (v : PyJson), (∀ fields, v ≠ PyJson.obj fields) →
       parse_llm_reply raw (some v)
         = { assistant_message := PyJson.str raw, action := none, action_data := none }) ∧
    (∀ (raw : String) (fields : List (String × PyJson)),
       dict_get fields "message" = none →
       (parse_llm_reply raw (some (PyJson.obj fields))).assistant_message
         = PyJson.str raw) := by
  refine ⟨fun raw => rfl, ?_, ?_⟩
  · intro raw v hv
    cases v with
    | obj fields => exact absurd rfl (hv fields)
    | null => rfl
    | bool b => rfl
    | num q => rfl
    | str s => rfl
    | arr items => rfl
  · intro raw fields h
    simp [parse_llm_reply, h]

/-- Witness for C7's amended theorem: parsing the reply `"hello"` whose
`json.loads` outcome is the object `\x7b"action": "noop"\x7d` (no
`message` key) keeps the raw text as the assistant message. -/
theorem parse_llm_reply_amended_witness :
    (parse_llm_reply "hello"
        (some (PyJson.obj [("action", PyJson.str "noop")]))).assistant_message
      = PyJson.str "hello" :=
  parse_llm_reply_amended.2.2 "hello" [("action", PyJson.str "noop")] rfl

/-- Counterexample to C7 as stated: the backend reply
`\x7b"action": "post_tweet"\x7d` is a JSON object without the expected
`message` field (`json.loads` yields exactly the one-key object below), yet
the orchestrator extracts a non-null action from it instead of producing
"no action". -/
theorem orchestrator_keeps_action_without_message_field :
    (parse_llm_reply "\x7b\"action\": \"post_tweet\"\x7d"
        (some (PyJson.obj [("action", PyJson.str "post_tweet")]))).action
      = some (PyJson.str "post_tweet") ∧
    (parse_llm_reply "\x7b\"action\": \"post_tweet\"\x7d"
        (some (PyJson.obj [("action", PyJson.str "post_tweet")]))).assistant_message
      = PyJson.str "\x7b\"action\": \"post_tweet\"\x7d" ∧
    some (PyJson.str "post_tweet") ≠ (none : Option PyJson) := by
  exact ⟨rfl, rfl, by simp⟩

/-- C2 (amended): with the explicit hint `"groq"`, a Groq failure whose
error text contains no offline keyword — or one occurring while Ollama is
unavailable — is surfaced directly as `"Groq API error: ..."`; but a
network-flavoured Groq failure with Ollama up falls over to Ollama even
under the explicit hint, because `chat` always passes
`fallback_to_ollama=True` into `_chat_groq` and that inner handler never
consults the hint.  The explicit hint `"ollama"` really does use only
Ollama. -/
theorem chat_provider_hint_failover_amended :
    (∀ (env : LLMEnv) (e : String), env.groq_call = .error e →
       (is_offline_error e && env.ollama_available) = true →
       llm_chat env "groq" = chat_ollama env) ∧
    (∀ (env : LLMEnv) (e : String), env.groq_call = .error e →
       (is_offline_error e && env.ollama_available) = false →
       llm_chat env "groq" = .error ("Groq API error: " ++ e)) ∧
    (∀ env : LLMEnv, llm_chat env "ollama" = chat_ollama env) := by
  have base : ∀ env : LLMEnv, llm_chat env "groq"
      = (match chat_groq env true with
         | .ok r => .ok r
         | .error e2 => .error e2) := fun env => rfl
  refine ⟨?_, ?_, fun env => rfl⟩
  · intro env e hg hc
    rw [base]
    have hgq : chat_groq env true = chat_ollama env := by
      simp [chat_groq, hg, hc]
    rw [hgq]
    cases hco : chat_ollama env with
    | ok r => rfl
    | error e2 => rfl
  · intro env e hg hc
    rw [base]
    have hgq : chat_groq env true = .error ("Groq API error: " ++ e) := by
      simp [chat_groq, hg, hc]
    rw [hgq]

/-- Witness for C2's amended theorem: a Groq failure `"quota exceeded"`
(no offline keyword) under the explicit `"groq"` hint is surfaced
directly, with Ollama healthy and untouched. -/
theorem chat_provider_hint_failover_amended_witness :
    llm_chat { groq_available := true, ollama_available := true,
               groq_model := "llama-3.1-8b-instant", ollama_model := "llama3.2",
               groq_call := .error "quota exceeded", ollama_call := .ok "hi" } "groq"
      = .error ("Groq API error: " ++ "quota exceeded") :=
  chat_provider_hint_failover_amended.2.1
    { groq_available := true, ollama_available := true,
      groq_model := "llama-3.1-8b-instant", ollama_model := "llama3.2",
      groq_call := .error "quota exceeded", ollama_call := .ok "hi" }
    "quota exceeded" rfl (by decide)

/-- Counterexample to C2 as stated: with the explicit (non-auto) hint
`"groq"`, a Groq connection failure is NOT surfaced — the call succeeds
with a reply tagged with Ollama's identity, i.e. failover happened outside
auto mode. -/
theorem chat_explicit_groq_hint_still_fails_over :
    llm_chat { groq_available := true, ollama_available := true,
               groq_model := "llama-3.1-8b-instant", ollama_model := "llama3.2",
               groq_call := .error "connection refused",
               ollama_call := .ok "fallback reply" } "groq"
      = .ok { message := "fallback reply", provider := "ollama", model := "llama3.2" } ∧
    ("groq" : String) ≠ "auto" := by
  exact ⟨rfl, by decide⟩

/-- C3: the Correction Ledger's promotion path is broken in the code: for
any user with at least one unapplied insight at the frequency floor,
`apply_insights_to_memory` raises `AttributeError` (it invokes
`memory_manager.add_memory`, which `MemoryManager` does not define)
before writing anything to Memory or setting the applied flag — so no
insight is ever promoted, instead of "exactly one promotion" as the claim
(and the function's own docstring) promise.  In every case the call either
raises or completes with 0 applied and the ledger unchanged: nothing is
ever written to the user's Memory, below the floor or above it. -/
theorem apply_insights_raises_attribute_error :
    (apply_insights_to_memory
       [{ id := 1, user_id := "u", insight_type := "correction", pattern := "p",
          correction := "c", frequency := 2, last_seen := 0, applied_to_memory := false }]
       "u"
     = .error (.attributeError "MemoryManager object has no attribute add_memory")) ∧
    (∀ (db : List LearningInsight) (user_id : String),
       apply_insights_to_memory db user_id = .ok (0, db) ∨
       apply_insights_to_memory db user_id
         = .error (.attributeError "MemoryManager object has no attribute add_memory")) := by
  constructor
  · rfl
  · intro db u
    cases hfind : (get_learning_insights db u 2).find? (fun i => !i.applied_to_memory) with
    | none => exact Or.inl (by simp [apply_insights_to_memory, hfind])
    | some i => exact Or.inr (by simp [apply_insights_to_memory, hfind])

theorem update_context_same_label (ctx : ConversationContext)
    (cur : ConversationTopic) (l user_message : String) (conf : ℚ)
    (kw : List String) (now : Nat)
    (hcur : ctx.current_topic = some cur) (hl : cur.topic = l) :
    ∃ cur' : ConversationTopic,
      (ctx.update_context user_message ⟨l, conf, kw⟩ now).1.current_topic = some cur' ∧
      cur'.topic = l ∧
      cur'.message_count = cur.message_count + 1 ∧
      cur'.confidence = (cur.confidence + conf) / 2 := by
  subst hl
  simp only [ConversationContext.update_context, hcur, bne_self_eq_false]
  exact ⟨_, rfl, rfl, rfl, rfl⟩

theorem apply_turns_continuation (l : String) :
    ∀ (ts : List TurnInput) (ctx : ConversationContext) (cur : ConversationTopic),
      ctx.current_topic = some cur → cur.topic = l →
      ∃ top : ConversationTopic,
        (apply_turns l ctx ts).current_topic = some top ∧
        top.topic = l ∧
        top.message_count = cur.message_count + ts.length ∧
        top.confidence = halving_average cur.confidence (ts.map (fun x => x.confidence)) := by
  intro ts
  induction ts with
  | nil =>
      intro ctx cur h hl
      exact ⟨cur, by simpa [apply_turns] using h, hl, by simp, rfl⟩
  | cons t ts ih =>
      intro ctx cur h hl
      obtain ⟨cur', hc1, hc2, hc3, hc4⟩ :=
        update_context_same_label ctx cur l t.user_message t.confidence t.keywords t.now h hl
      have hfold : apply_turns l ctx (t :: ts)
          = apply_turns l ((ctx.update_context t.user_message ⟨l, t.confidence, t.keywords⟩ t.now).1) ts := rfl
      rw [hfold]
      obtain ⟨top, h1, h2, h3, h4⟩ := ih _ cur' hc1 hc2
      refine ⟨top, h1, h2, ?_, ?_⟩
      · rw [h3, hc3]; simp; omega
      · rw [h4, hc4]; rfl

/-- C4 (amended): starting from a session with no current topic, N ≥ 1
consecutive messages all classified with the same label leave a current
topic whose message counter is exactly N and whose label is that label —
but whose confidence is the pairwise running average the code actually
computes, `c ↦ (c + new) / 2` folded over the observations (the first
observation seeds it), NOT the arithmetic mean of the N observed
confidences. -/
theorem topic_continuation_amended :
    ∀ (ctx : ConversationContext) (l : String) (t : TurnInput) (ts : List TurnInput),
      ctx.current_topic = none →
      ∃ top : ConversationTopic,
        (apply_turns l ctx (t :: ts)).current_topic = some top ∧
        top.topic = l ∧
        top.message_count = (t :: ts).length ∧
        top.confidence = halving_average t.confidence (ts.map (fun x => x.confidence)) := by
  intro ctx l t ts h
  have hfirst : (ctx.update_context t.user_message ⟨l, t.confidence, t.keywords⟩ t.now).1.current_topic
      = some (ConversationTopic.create l t.keywords [t.user_message] t.confidence t.now) := by
    simp [ConversationContext.update_context, h]
  have hfold : apply_turns l ctx (t :: ts)
      = apply_turns l ((ctx.update_context t.user_message ⟨l, t.confidence, t.keywords⟩ t.now).1) ts := rfl
  rw [hfold]
  obtain ⟨top, h1, h2, h3, h4⟩ := apply_turns_continuation l ts _ _ hfirst rfl
  refine ⟨top, h1, h2, ?_, h4⟩
  simp [ConversationTopic.create] at h3
  simp only [List.length_cons]
  omega

/-- Witness for C4's amended theorem: a single turn with confidence 1/2
starting from the initial (topic-less) state yields counter 1 and
confidence 1/2. -/
theorem topic_continuation_amended_witness :
    ∃ top : ConversationTopic,
      (apply_turns "weather" ConversationContext.init
         [⟨"m1", 1/2, [], 0⟩]).current_topic = some top ∧
      top.topic = "weather" ∧
      top.message_count = 1 ∧
      top.confidence = halving_average (1/2) [] :=
  topic_continuation_amended ConversationContext.init "weather" ⟨"m1", 1/2, [], 0⟩ [] rfl

/-- Counterexample to C4 as stated: three same-topic messages with
observed confidences 1, 0, 0 leave confidence ((1+0)/2+0)/2 = 1/4, while
the claimed running average of the three observations is (1+0+0)/3 = 1/3. -/
theorem topic_confidence_not_arithmetic_mean :
    ((apply_turns "general" ConversationContext.init
        [⟨"m1", 1, [], 0⟩, ⟨"m2", 0, [], 1⟩, ⟨"m3", 0, [], 2⟩]).current_topic.map
       (fun top => top.confidence))
      = some ((((1 : ℚ) + 0) / 2 + 0) / 2) ∧
    ((apply_turns "general" ConversationContext.init
        [⟨"m1", 1, [], 0⟩, ⟨"m2", 0, [], 1⟩, ⟨"m3", 0, [], 2⟩]).current_topic.map
       (fun top => top.message_count))
      = some 3 ∧
    (((1 : ℚ) + 0) / 2 + 0) / 2 ≠ ((1 : ℚ) + 0 + 0) / 3 := by
  refine ⟨rfl, rfl, by norm_num⟩

/-- C5 (amended): `analyze_query` flags a message as ambiguous
(`is_ambiguous` = `needs_clarification`) exactly when the string is empty
(which also forces confidence 0.0) or the detected intent confidence is
below the fixed 0.7 threshold.  The remaining conditions of the claim —
fewer than 3 words, a pronoun-only reference, more than 2 question
marks — only contribute entries to `ambiguity_reasons` (in an `elif`
cascade) and do NOT by themselves set the flag. -/
theorem analyze_query_flag_amended :
    ∀ q : String,
      (analyze_query q).needs_clarification
        = (((py_strip q.data).length == 0)
            || decide ((detect_intent q).2 < CONFIDENCE_THRESHOLD)) ∧
      (analyze_query q).is_ambiguous = (analyze_query q).needs_clarification ∧
      (analyze_query q).confidence
        = (if (py_strip q.data).length = 0 then 0 else (detect_intent q).2) := by
  intro q
  by_cases h : (py_strip q.data).length = 0
  · simp [analyze_query, h]
  · have hne : ((py_strip q.data).length == 0) = false := by
      simpa using h
    simp [analyze_query, h, hne]

set_option maxRecDepth 200000 in
/-- Counterexample to C5 as stated: the 2-word query
`"xdivided bycalculatecomputesolveplusminustimes"` contains 7 of the 9
calculation exemplars as substrings, so the keyword fallback scores it
7/9 ≥ 0.7; it has fewer than 3 words (reason `"too_short"` is recorded),
yet `is_ambiguous` and `needs_clarification` are both false — the
fewer-than-3-words condition does not flag the message. -/
theorem short_query_not_flagged_ambiguous :
    (py_words "xdivided bycalculatecomputesolveplusminustimes").length < 3 ∧
    (analyze_query "xdivided bycalculatecomputesolveplusminustimes").is_ambiguous
      = false ∧
    (analyze_query "xdivided bycalculatecomputesolveplusminustimes").needs_clarification
      = false ∧
    (analyze_query "xdivided bycalculatecomputesolveplusminustimes").ambiguity_reasons
      = ["too_short"] := by
  refine ⟨by decide, ?_, ?_, ?_⟩
  · with_unfolding_all rfl
  · with_unfolding_all rfl
  · with_unfolding_all rfl

theorem insert_desc_of_all_lt (m : StoredMessage) (acc : List StoredMessage)
    (h : ∀ x ∈ acc, x.timestamp < m.timestamp) :
    insert_desc_by_ts m acc = m :: acc := by
  cases acc with
  | nil => rfl
  | cons x xs =>
      have hx : x.timestamp < m.timestamp := h x (by simp)
      have hle : ¬ m.timestamp ≤ x.timestamp := by omega
      simp [insert_desc_by_ts, hle]

theorem foldl_insert_desc_of_sorted :
    ∀ (rows acc : List StoredMessage),
      rows.Pairwise (fun a b => a.timestamp < b.timestamp) →
      (∀ x ∈ acc, ∀ y ∈ rows, x.timestamp < y.timestamp) →
      rows.foldl (fun acc m => insert_desc_by_ts m acc) acc = rows.reverse ++ acc := by
  intro rows
  induction rows with
  | nil => intro acc _ _; simp
  | cons r rs ih =>
      intro acc hp hacc
      obtain ⟨hr, hrs⟩ := List.pairwise_cons.mp hp
      rw [List.foldl_cons,
          insert_desc_of_all_lt r acc (fun x hx => hacc x hx r (by simp))]
      rw [ih (r :: acc) hrs ?side]
      · simp
      case side =>
        intro x hx y hy
        rcases List.mem_cons.mp hx with hxr | hxa
        · subst hxr; exact hr y hy
        · exact hacc x hxa y (by simp [hy])

theorem sort_by_ts_desc_of_sorted (rows : List StoredMessage)
    (hp : rows.Pairwise (fun a b => a.timestamp < b.timestamp)) :
    sort_by_ts_desc rows = rows.reverse := by
  have := foldl_insert_desc_of_sorted rows [] hp (by simp)
  simpa [sort_by_ts_desc] using this

/-- C8 (amended): when the timestamps of a session's stored messages are
strictly increasing in insertion order (no ties), fetching the last K
messages returns exactly the append-order suffix, oldest first, as the
spec promises.  With tied timestamps, however, the promise fails: the SQL
orders by timestamp only, and reversing the descending page puts
equal-timestamp messages in REVERSE insertion order (under the scan-order
model of the sorter's tie behaviour), so the tie-break-by-insertion-order
part of the claim does not hold. -/
theorem get_session_messages_suffix_amended :
    ∀ (db : List StoredMessage) (session_id : String) (limit : Nat),
      (db.filter (fun m => m.session_id == session_id)).Pairwise
          (fun a b => a.timestamp < b.timestamp) →
      get_session_messages db session_id limit
        = spec_chronological_fetch db session_id limit := by
  intro db sid K hp
  unfold get_session_messages spec_chronological_fetch
  rw [sort_by_ts_desc_of_sorted _ hp]
  by_cases hK : K ≠ 0
  · simp only [if_pos hK]
    rw [List.take_reverse, List.reverse_reverse]
    rfl
  · simp only [if_neg hK]
    rw [List.reverse_reverse]

/-- Witness for C8's amended theorem: two messages saved at ticks 1 and 2;
fetching the last 1 message returns exactly the newest one, matching the
append-order suffix. -/
theorem get_session_messages_suffix_amended_witness :
    get_session_messages
      [{ session_id := "s", user_id := "u", role := "user", content := "a", timestamp := 1 },
       { session_id := "s", user_id := "u", role := "assistant", content := "b", timestamp := 2 }]
      "s" 1
    = spec_chronological_fetch
      [{ session_id := "s", user_id := "u", role := "user", content := "a", timestamp := 1 },
       { session_id := "s", user_id := "u", role := "assistant", content := "b", timestamp := 2 }]
      "s" 1 :=
  get_session_messages_suffix_amended
    [{ session_id := "s", user_id := "u", role := "user", content := "a", timestamp := 1 },
     { session_id := "s", user_id := "u", role := "assistant", content := "b", timestamp := 2 }]
    "s" 1 (by decide)

/-- Counterexample to C8 as stated: a user message and an assistant
message saved back-to-back with the same `CURRENT_TIMESTAMP` tick (SQLite
timestamps have 1-second granularity, so this is the common case for one
turn).  The fetch returns them assistant-first — the reverse of the
append-order suffix the claim promises. -/
theorem fetch_tied_timestamps_reverse_order :
    get_session_messages
      (save_message (save_message [] "s" "u" "user" "a" 10) "s" "u" "assistant" "b" 10)
      "s" 50
    = [{ role := "assistant", content := "b", timestamp := 10 },
       { role := "user", content := "a", timestamp := 10 }] ∧
    spec_chronological_fetch
      (save_message (save_message [] "s" "u" "user" "a" 10) "s" "u" "assistant" "b" 10)
      "s" 50
    = [{ role := "user", content := "a", timestamp := 10 },
       { role := "assistant", content := "b", timestamp := 10 }] ∧
    ([{ role := "assistant", content := "b", timestamp := 10 },
      { role := "user", content := "a", timestamp := 10 }] : List MessageOut)
    ≠ [{ role := "user", content := "a", timestamp := 10 },
       { role := "assistant", content := "b", timestamp := 10 }] := by
  refine ⟨rfl, rfl, by decide⟩

theorem mem_entries_of_query_hit {Vec : Type} (kb : KnowledgeBase Vec)
    (hits : List (ℚ × Int)) (ms : ℚ) (hit : QueryHit)
    (h : hit ∈ query_knowledge kb hits ms) : hit.entry ∈ kb.knowledge_entries := by
  unfold query_knowledge at h
  split at h
  · simp at h
  · obtain ⟨p, hp, heq⟩ := List.mem_filterMap.mp h
    dsimp only at heq
    split at heq
    · split at heq
      next entry hget =>
        split at heq
        · injection heq with heq'
          subst heq'
          exact List.get?_mem hget
        · exact absurd heq (by simp)
      next hget => exact absurd heq (by simp)
    · exact absurd heq (by simp)

theorem reindex_all_entries {Vec : Type} (d : KBDeps Vec) (kb : KnowledgeBase Vec) :
    (reindex_all d kb).knowledge_entries = kb.knowledge_entries := by
  unfold reindex_all
  split <;> rfl

/-- C1 (amended): after `delete_knowledge(id)`, the entries-equals-vectors
invariant holds whenever at least one entry survives (and trivially when
the delete fails); `add_knowledge` and `clear_all` always preserve it; and
a query issued after the delete never returns the deleted id, whatever the
nearest-neighbour search yields.  The one exception — deleting the LAST
entry, where `_reindex_all` returns early and the stale vector stays in
the index — is exhibited by the counterexample. -/
theorem knowledge_mutation_invariant_amended :
    ∀ (Vec : Type) (d : KBDeps Vec) (kb : KnowledgeBase Vec) (entry_id : String),
      kb.knowledge_entries.length = kb.index.length →
      (((delete_knowledge d kb entry_id).2.knowledge_entries ≠ [] ∨
          (delete_knowledge d kb entry_id).1 = false) →
        (delete_knowledge d kb entry_id).2.knowledge_entries.length
          = (delete_knowledge d kb entry_id).2.index.length) ∧
      (∀ (hits : List (ℚ × Int)) (ms : ℚ) (hit : QueryHit),
         hit ∈ query_knowledge (delete_knowledge d kb entry_id).2 hits ms →
         hit.entry.id ≠ entry_id) ∧
      (∀ (c t s : String) (m : List (String × String)) (now : Nat)
         (st : AddStatus) (e : KnowledgeEntry) (kb' : KnowledgeBase Vec),
         add_knowledge d kb c t s m now = .ok (st, e, kb') →
         kb'.knowledge_entries.length = kb'.index.length) ∧
      ((clear_all kb).2.knowledge_entries.length = (clear_all kb).2.index.length) := by
  intro Vec d kb entry_id hinv
  refine ⟨?_, ?_, ?_, ?_⟩
  · -- delete keeps the invariant when survivors remain or nothing was deleted
    by_cases hav : kb.available = false
    · intro _
      simpa [delete_knowledge, hav] using hinv
    · have hav' : kb.available = true := by revert hav; cases kb.available <;> simp
      cases hfind : kb.knowledge_entries.find? (fun e => e.id == entry_id) with
      | none =>
          intro _
          simpa [delete_knowledge, hav', hfind] using hinv
      | some ex =>
          have hdel : delete_knowledge d kb entry_id
              = (true, reindex_all d
                  { kb with knowledge_entries :=
                      kb.knowledge_entries.filter (fun e => e.id != entry_id) }) := by
            simp [delete_knowledge, hav', hfind]
          rw [hdel]
          intro hne
          by_cases hemp : (kb.knowledge_entries.filter (fun e => e.id != entry_id)).isEmpty
          · exfalso
            rcases hne with hne | hne
            · exact hne (by simpa [reindex_all, hemp, List.isEmpty_iff] using
                (List.isEmpty_iff.mp hemp))
            · simp at hne
          · simp [reindex_all, hemp]
  · -- a query after the delete never returns the deleted id
    intro hits ms hit hmem
    by_cases hav : kb.available = false
    · rw [show delete_knowledge d kb entry_id = (false, kb) from by
          simp [delete_knowledge, hav]] at hmem
      have : (!kb.available || kb.knowledge_entries.isEmpty) = true := by
        simp [hav]
      simp [query_knowledge, this] at hmem
    · have hav' : kb.available = true := by revert hav; cases kb.available <;> simp
      cases hfind : kb.knowledge_entries.find? (fun e => e.id == entry_id) with
      | none =>
          rw [show delete_knowledge d kb entry_id = (false, kb) from by
              simp [delete_knowledge, hav', hfind]] at hmem
          have hment := mem_entries_of_query_hit _ _ _ _ hmem
          have := List.find?_eq_none.mp hfind hit.entry hment
          simpa using this
      | some ex =>
          have hdel : delete_knowledge d kb entry_id
              = (true, reindex_all d
                  { kb with knowledge_entries :=
                      kb.knowledge_entries.filter (fun e => e.id != entry_id) }) := by
            simp [delete_knowledge, hav', hfind]
          rw [hdel] at hmem
          have hment := mem_entries_of_query_hit _ _ _ _ hmem
          rw [reindex_all_entries] at hment
          have := (List.mem_filter.mp hment).2
          simpa using this
  · -- add preserves the invariant
    intro c t s m now st e kb' h
    have hav : kb.available = true := by
      by_contra hn
      have hf : kb.available = false := by revert hn; cases kb.available <;> simp
      simp [add_knowledge, hf] at h
    cases hfind : kb.knowledge_entries.find? (fun x => x.id == d.generate_id c) with
    | some ex =>
        simp only [add_knowledge, hav, Bool.true_eq_false, if_false, hfind] at h
        injection h with htrip
        injection htrip with h1 hrest
        injection hrest with h2 h3
        subst h3
        exact hinv
    | none =>
        simp only [add_knowledge, hav, Bool.true_eq_false, if_false, hfind] at h
        injection h with htrip
        injection htrip with h1 hrest
        injection hrest with h2 h3
        subst h3
        simpa using hinv
  · -- clear establishes (or trivially keeps) the invariant
    by_cases hav : kb.available = false
    · simpa [clear_all, hav] using hinv
    · have hav' : kb.available = true := by revert hav; cases kb.available <;> simp
      simp [clear_all, hav']

set_option maxRecDepth 100000 in
/-- Witness for C1's amended theorem, on the two-entry knowledge base
reached by adding `"a"` then `"b"`: deleting `"a"` leaves one entry and
one vector (counts equal), and the survivor a nearest-neighbour query
returns at distance 0 is not the deleted id. -/
theorem knowledge_mutation_invariant_amended_witness :
    (delete_knowledge unit_kb_deps two_entry_kb "a").2.knowledge_entries.length
      = (delete_knowledge unit_kb_deps two_entry_kb "a").2.index.length ∧
    ({ entry := entry_b, similarity := 1, rank := 1 } : QueryHit).entry.id ≠ "a" :=
  ⟨(knowledge_mutation_invariant_amended Unit unit_kb_deps two_entry_kb "a" rfl).1
     (Or.inl (by decide)),
   (knowledge_mutation_invariant_amended Unit unit_kb_deps two_entry_kb "a" rfl).2.1
     [(0, 0)] 0 { entry := entry_b, similarity := 1, rank := 1 }
     (by
       have heq : query_knowledge (delete_knowledge unit_kb_deps two_entry_kb "a").2
           [(0, 0)] 0 = [{ entry := entry_b, similarity := 1, rank := 1 }] := by
         with_unfolding_all rfl
       rw [heq]
       exact List.mem_singleton_self _)⟩

set_option maxRecDepth 8000 in
/-- Counterexample to C1 as stated: from the empty available knowledge
base, add `"a"` (1 entry, 1 vector), then delete it.  The delete reports
success and the entry list becomes empty, but `_reindex_all` returns early
on an empty entry list, so the index still holds the stale vector: 0
entries versus 1 vector after a completed delete. -/
theorem knowledge_delete_last_entry_breaks_vector_invariant :
    add_knowledge unit_kb_deps
        { available := true, knowledge_entries := [], index := [] } "a" "" "user" [] 0
      = .ok (.added, entry_a,
             { available := true, knowledge_entries := [entry_a], index := [()] }) ∧
    delete_knowledge unit_kb_deps
        { available := true, knowledge_entries := [entry_a], index := [()] } "a"
      = (true, { available := true, knowledge_entries := [], index := [()] }) ∧
    (delete_knowledge unit_kb_deps
        { available := true, knowledge_entries := [entry_a], index := [()] } "a"
      ).2.knowledge_entries.length
      ≠ (delete_knowledge unit_kb_deps
        { available := true, knowledge_entries := [entry_a], index := [()] } "a"
      ).2.index.length := by
  refine ⟨rfl, rfl, by decide⟩
